import Mathlib

/-!
Verification of the region-resolution core of `shot` (src/shot.c).

The driving command layer (`init_region`, `parse_options`, `main`) is embedded
from src/shot.c.  Command-line tokenization is performed by the C library
function `getopt_long`; it is modelled by its documented contract, with the
option tables (`short_opt`, `long_opt`) taken verbatim from src/shot.c, and an
invocation is represented as the list of option events the tokenizer delivers
to the option loop.  The individual region resolvers
(`update_region_from_all_monitors`, `update_region_from_monitor`,
`update_region_from_string`, `update_region_interactively`,
`update_region_from_active_window`) and the error constants live in source
files that are not part of this tree; they are modelled from the spec, each
marked as such in its doc comment.  Side effects are made explicit: every
message printed and every resolver invocation is recorded in a trace, and the
outcomes of the two environment-dependent resolvers (interactive selection,
active-window query) are supplied by an `Env` record.
-/

/-- A capture rectangle, as in the C `ShotRegion`: signed position and size. -/
structure ShotRegion where
  x : Int
  y : Int
  width : Int
  height : Int
  deriving DecidableEq, Repr

/-- One enumerated display: geometry plus a primary flag. -/
structure Monitor where
  x : Int
  y : Int
  width : Int
  height : Int
  primary : Bool
  deriving DecidableEq, Repr

/-- The rectangle of a monitor, forgetting the primary flag. -/
def Monitor.rect (m : Monitor) : ShotRegion :=
  ⟨m.x, m.y, m.width, m.height⟩

/-- The monitor manager: the ordered list of enumerated monitors. -/
structure MonitorManager where
  monitors : List Monitor
  deriving DecidableEq, Repr

/-- The number of enumerated monitors (`monitor_mgr->monitor_count`). -/
def MonitorManager.monitor_count (mm : MonitorManager) : Nat :=
  mm.monitors.length

/-- Modelled from the spec: region_picker/errors.h is not in the tree; §7 of
the spec enumerates four distinct, non-retryable failure kinds.  They are
modelled as distinct positive integers (0 is success, -1 is the driver's
"no mode attempted" sentinel). -/
def ERR_OTHER : Int := 1

/-- Modelled from the spec: see `ERR_OTHER`. -/
def ERR_CANCELED : Int := 2

/-- Modelled from the spec: see `ERR_OTHER`. -/
def ERR_NOT_IMPLEMENTED : Int := 3

/-- Modelled from the spec: see `ERR_OTHER`. -/
def ERR_INVALID_ARGUMENT : Int := 4

/-- Modelled from the spec (§4.3): the axis-aligned bounding box of all
monitors: x = min of left edges, y = min of top edges, width and height from
the max right and bottom edges. -/
def desktopUnion : List Monitor → ShotRegion
  | [] => ⟨0, 0, 0, 0⟩
  | m :: ms =>
      let left := ms.foldl (fun a q => min a q.x) m.x
      let top := ms.foldl (fun a q => min a q.y) m.y
      let right := ms.foldl (fun a q => max a (q.x + q.width)) (m.x + m.width)
      let bottom := ms.foldl (fun a q => max a (q.y + q.height)) (m.y + m.height)
      ⟨left, top, right - left, bottom - top⟩

/-- Modelled from the spec (§4.3): `update_region_from_all_monitors` (its
source file is not in the tree) writes the desktop union and succeeds whenever
at least one monitor exists; with no monitors it fails and leaves the region
untouched. -/
def update_region_from_all_monitors (region : ShotRegion) (mm : MonitorManager) :
    Int × ShotRegion :=
  match mm.monitors with
  | [] => (ERR_OTHER, region)
  | _ :: _ => (0, desktopUnion mm.monitors)

/-- Modelled from the spec (§4.3): `update_region_from_monitor` copies the
given monitor's rectangle verbatim and succeeds. -/
def update_region_from_monitor (_region : ShotRegion) (m : Monitor) :
    Int × ShotRegion :=
  (0, m.rect)

/-- Numeric value of a digit string. -/
def digitsVal (ds : List Char) : Nat :=
  ds.foldl (fun a c => a * 10 + (c.toNat - 48)) 0

/-- Reads a non-empty run of decimal digits from the front of the input. -/
def readNat (cs : List Char) : Option (Nat × List Char) :=
  let ds := cs.takeWhile Char.isDigit
  if ds.isEmpty then none
  else some (digitsVal ds, cs.dropWhile Char.isDigit)

/-- Reads an optionally negated run of decimal digits. -/
def readSignedInt (cs : List Char) : Option (Int × List Char) :=
  match cs with
  | '-' :: rest => (readNat rest).map (fun p => (-(p.1 : Int), p.2))
  | _ => (readNat cs).map (fun p => ((p.1 : Int), p.2))

/-- Modelled from the spec (§4.2, §6): the geometry grammar
WIDTHxHEIGHT with an optional +X+Y offset, all integers, width and height
mandatory and positive, offsets signed and defaulting to 0; any grammar
violation is a hard failure. -/
def parseGeometry (s : String) : Option ShotRegion :=
  match readNat s.toList with
  | none => none
  | some (w, rest1) =>
    match rest1 with
    | 'x' :: rest2 =>
      match readNat rest2 with
      | none => none
      | some (h, rest3) =>
        if w = 0 || h = 0 then none
        else
          match rest3 with
          | [] => some ⟨0, 0, (w : Int), (h : Int)⟩
          | '+' :: rest4 =>
            match readSignedInt rest4 with
            | none => none
            | some (px, rest5) =>
              match rest5 with
              | '+' :: rest6 =>
                match readSignedInt rest6 with
                | some (py, []) => some ⟨px, py, (w : Int), (h : Int)⟩
                | _ => none
              | _ => none
          | _ => none
    | _ => none

/-- Modelled from the spec (§4.2): `update_region_from_string` writes the
parsed rectangle on success and fails with `ERR_INVALID_ARGUMENT` on any
malformed input, leaving the region untouched. -/
def update_region_from_string (region : ShotRegion) (s : String) :
    Int × ShotRegion :=
  match parseGeometry s with
  | some r => (0, r)
  | none => (ERR_INVALID_ARGUMENT, region)

/-- Outcome of the platform query for the focused window (§4.4). -/
inductive ActiveWindowOutcome where
  | notImplemented
  | otherFailure
  | window (r : ShotRegion)
  deriving DecidableEq, Repr

/-- The environment of one invocation: the outcome of an interactive
selection as a function of the working area (`none` = user canceled), the
outcome of the active-window query, and whether the final PNG save succeeds. -/
structure Env where
  interactiveOutcome : ShotRegion → Option ShotRegion
  activeWindow : ActiveWindowOutcome
  saveOk : Bool

/-- Modelled from the spec (§4.5): the interactive selector, run inside the
given working area, either commits a rectangle (possibly zero-sized — the
positivity check belongs to the caller) or is canceled, yielding
`ERR_CANCELED` and leaving the region untouched. -/
def update_region_interactively (env : Env) (region : ShotRegion)
    (working_area : ShotRegion) : Int × ShotRegion :=
  match env.interactiveOutcome working_area with
  | none => (ERR_CANCELED, region)
  | some r => (0, r)

/-- Modelled from the spec (§4.4): the active-window locator returns the
focused window's rectangle, or `ERR_NOT_IMPLEMENTED` when the platform has no
query mechanism, or `ERR_OTHER` when the query fails. -/
def update_region_from_active_window (env : Env) (region : ShotRegion) :
    Int × ShotRegion :=
  match env.activeWindow with
  | .notImplemented => (ERR_NOT_IMPLEMENTED, region)
  | .otherFailure => (ERR_OTHER, region)
  | .window r => (0, r)

/-- Accumulates the value of a leading digit run, as `atoi` does. -/
def atoiLoop : List Char → Int → Int
  | c :: rest, acc =>
      if c.isDigit then atoiLoop rest (acc * 10 + ((c.toNat : Int) - 48)) else acc
  | [], acc => acc

/-- The C library `atoi`, by its documented contract: skip leading
whitespace, read an optional sign and a leading digit run, ignore the rest;
no digits yields 0. -/
def atoi (s : String) : Int :=
  let cs := s.toList.dropWhile (fun c => c = ' ' || c = '\t' || c = '\n' || c = '\r')
  match cs with
  | '-' :: rest => - atoiLoop rest 0
  | '+' :: rest => atoiLoop rest 0
  | _ => atoiLoop cs 0

/-- Conversion of a C `int` value to `size_t` (64-bit): reduction modulo
2^64, as in `size_t n = atoi(optarg)`. -/
def cSizeT (v : Int) : Nat :=
  (v % (2 ^ 64 : Int)).toNat

/-- One primary-centering pass of `init_region`: a primary monitor recenters
the region on itself (C integer division truncates toward zero, hence
`Int.tdiv`); any other monitor leaves it alone. -/
def centerStep (r : ShotRegion) (m : Monitor) : ShotRegion :=
  if m.primary then
    { r with
        x := m.x + Int.tdiv (m.width - r.width) 2,
        y := m.y + Int.tdiv (m.height - r.height) 2 }
  else r

/-- `init_region` from src/shot.c: start from the fixed 640x480 region at
(40,40), then walk all monitors and recenter on each primary one. -/
def init_region (mm : MonitorManager) : ShotRegion :=
  mm.monitors.foldl centerStep ⟨40, 40, 640, 480⟩

/-- Observable events of one run: each message printed to stdout/stderr and
each resolver invocation, in order. -/
inductive TraceEntry where
  | usage
  | usageHint
  | invokedAllMonitors
  | invokedMonitor (n : Nat)
  | invokedGeometry (s : String)
  | invokedInteractive (working_area : ShotRegion)
  | invokedActiveWindow
  | msgInvalidMonitorNumber (maxIndex : Int)
  | msgCanceled
  | msgNotImplemented
  | msgInvalidArgument
  | msgOther
  | msgNonPositiveSize
  | captured
  deriving DecidableEq, Repr

/-- The option events `getopt_long` can deliver to the option loop of
`parse_options`, one per accepted flag, plus `badOpt` for an unrecognized
option (getopt's return of the character for an unknown or incomplete
option). -/
inductive OptEvent where
  | help
  | output (path : String)
  | region (geometry : String)
  | monitor (arg : String)
  | desktop
  | interactive
  | window
  | badOpt
  deriving DecidableEq, Repr

/-- Whether an event is one of the five region-mode flags. -/
def OptEvent.isMode : OptEvent → Bool
  | .region _ => true
  | .monitor _ => true
  | .desktop => true
  | .interactive => true
  | .window => true
  | _ => false

/-- The mutable state of `parse_options`: the `ShotOptions` fields, the
`region_result` tracking variable (initially -1 = no mode attempted), and the
trace of observable events. -/
structure ParseState where
  error : Int
  output_path : Option String
  region : ShotRegion
  region_result : Int
  trace : List TraceEntry
  deriving DecidableEq, Repr

/-- One iteration of the option-processing switch in `parse_options`. -/
def step (env : Env) (mm : MonitorManager) (st : ParseState) (e : OptEvent) :
    ParseState :=
  match e with
  | .help => { st with error := -1, trace := st.trace ++ [.usage] }
  | .output p => { st with output_path := some p }
  | .badOpt => { st with error := 1, trace := st.trace ++ [.usageHint] }
  | .desktop =>
      let res := update_region_from_all_monitors st.region mm
      { st with region_result := res.1, region := res.2,
                trace := st.trace ++ [.invokedAllMonitors] }
  | .monitor arg =>
      let n := cSizeT (atoi arg)
      if hn : n < mm.monitors.length then
        let res := update_region_from_monitor st.region (mm.monitors.get ⟨n, hn⟩)
        { st with region_result := res.1, region := res.2,
                  trace := st.trace ++ [.invokedMonitor n] }
      else
        { st with region_result := ERR_INVALID_ARGUMENT,
                  trace := st.trace ++
                    [.msgInvalidMonitorNumber ((mm.monitors.length : Int) - 1)] }
  | .region g =>
      let res := update_region_from_string st.region g
      { st with region_result := res.1, region := res.2,
                trace := st.trace ++ [.invokedGeometry g] }
  | .interactive =>
      let wa := (update_region_from_all_monitors ⟨0, 0, 0, 0⟩ mm).2
      let res := update_region_interactively env st.region wa
      { st with region_result := res.1, region := res.2,
                trace := st.trace ++ [.invokedAllMonitors, .invokedInteractive wa] }
  | .window =>
      let res := update_region_from_active_window env st.region
      { st with region_result := res.1, region := res.2,
                trace := st.trace ++ [.invokedActiveWindow] }

/-- The `while (!options.error)` option loop of `parse_options`: process
events in order, stopping as soon as the error field becomes non-zero. -/
def loop (env : Env) (mm : MonitorManager) : ParseState → List OptEvent → ParseState
  | st, [] => st
  | st, e :: es => if st.error = 0 then loop env mm (step env mm st e) es else st

/-- The fallback after the loop: if no region was chosen in the arguments
(`region_result == -1`), take the whole desktop. -/
def applyFallback (mm : MonitorManager) (st : ParseState) : ParseState :=
  if st.region_result = -1 then
    let res := update_region_from_all_monitors st.region mm
    { st with region_result := res.1, region := res.2,
              trace := st.trace ++ [.invokedAllMonitors] }
  else st

/-- The final `if (region_result)` block of `parse_options`: on any non-zero
result print the message naming the failure kind (plus a usage hint for an
invalid argument) and set the error flag. -/
def reportFailure (st : ParseState) : ParseState :=
  if st.region_result = 0 then st
  else
    let msgs :=
      if st.region_result = ERR_CANCELED then [TraceEntry.msgCanceled]
      else if st.region_result = ERR_NOT_IMPLEMENTED then [TraceEntry.msgNotImplemented]
      else if st.region_result = ERR_INVALID_ARGUMENT then
        [TraceEntry.msgInvalidArgument, TraceEntry.usageHint]
      else if st.region_result = ERR_OTHER then [TraceEntry.msgOther]
      else []
    { st with error := 1, trace := st.trace ++ msgs }

/-- The initial `ShotOptions` state of `parse_options`. -/
def initState (mm : MonitorManager) : ParseState :=
  { error := 0, output_path := none, region := init_region mm,
    region_result := -1, trace := [] }

/-- `parse_options` from src/shot.c, over the event list the tokenizer
delivers: initialize the region, run the option loop, fall back to the whole
desktop when no mode was attempted, then report any failure. -/
def parse_options (env : Env) (mm : MonitorManager) (events : List OptEvent) :
    ParseState :=
  reportFailure (applyFallback mm (loop env mm (initState mm) events))

/-- `main` from src/shot.c after a successful monitor enumeration: exit 1 on
a parse error, reject a non-positive region before capturing, otherwise grab
the screenshot and exit 0 exactly when the PNG save succeeds.  Returns the
exit code and the trace. -/
def mainRun (env : Env) (mm : MonitorManager) (events : List OptEvent) :
    Int × List TraceEntry :=
  let opts := parse_options env mm events
  if opts.error ≠ 0 then (1, opts.trace)
  else if opts.region.width ≤ 0 ∨ opts.region.height ≤ 0 then
    (1, opts.trace ++ [.msgNonPositiveSize])
  else if env.saveOk then (0, opts.trace ++ [.captured])
  else (1, opts.trace ++ [.captured])

/-- The short-option string of src/shot.c, verbatim.  Note it lacks an entry
for the `m` flag. -/
def short_opt : String := "ho:r:diw"

/-- The long-option table of src/shot.c: long name and equivalent short
character. -/
def long_opt : List (String × Char) :=
  [("help", 'h'), ("output", 'o'), ("region", 'r'), ("monitor", 'm'),
   ("desktop", 'd'), ("interactive", 'i'), ("window", 'w')]

/-- The event the switch in `parse_options` handles for a given option
character. -/
def eventForChar (c : Char) (arg : String) : OptEvent :=
  match c with
  | 'h' => .help
  | 'o' => .output arg
  | 'r' => .region arg
  | 'm' => .monitor arg
  | 'd' => .desktop
  | 'i' => .interactive
  | 'w' => .window
  | _ => .badOpt

/-- Models the documented contract of the C library `getopt_long` for a short
flag: a character is an accepted option exactly when it occurs in the
short-option string (where `:` is an argument marker, not an option); any
other flag is reported as an unrecognized option. -/
def shortFlagEvent (c : Char) (arg : String) : OptEvent :=
  if short_opt.toList.contains c && c ≠ ':' then eventForChar c arg
  else .badOpt

/-- Models the documented contract of the C library `getopt_long` for a long
flag: a long option is looked up by name in the long-option table and
delivers its equivalent short character; an unknown name is reported as an
unrecognized option. -/
def longFlagEvent (long_name : String) (arg : String) : OptEvent :=
  match long_opt.find? (fun p => p.1 = long_name) with
  | some p => eventForChar p.2 arg
  | none => .badOpt

/-- The result code produced by the mode resolver a mode event invokes; it
does not depend on the region accumulated so far. -/
def modeCode (env : Env) (mm : MonitorManager) : OptEvent → Int
  | .desktop => if mm.monitors.isEmpty then ERR_OTHER else 0
  | .monitor arg =>
      if cSizeT (atoi arg) < mm.monitors.length then 0 else ERR_INVALID_ARGUMENT
  | .region g =>
      match parseGeometry g with
      | some _ => 0
      | none => ERR_INVALID_ARGUMENT
  | .interactive =>
      match env.interactiveOutcome (update_region_from_all_monitors ⟨0, 0, 0, 0⟩ mm).2 with
      | none => ERR_CANCELED
      | some _ => 0
  | .window =>
      match env.activeWindow with
      | .notImplemented => ERR_NOT_IMPLEMENTED
      | .otherFailure => ERR_OTHER
      | .window _ => 0
  | _ => 0

/-- The rectangle produced by the mode resolver a mode event invokes, when it
succeeds; it does not depend on the region accumulated so far. -/
def modeRect (env : Env) (mm : MonitorManager) : OptEvent → ShotRegion
  | .desktop => desktopUnion mm.monitors
  | .monitor arg =>
      if hn : cSizeT (atoi arg) < mm.monitors.length then
        (mm.monitors.get ⟨cSizeT (atoi arg), hn⟩).rect
      else ⟨0, 0, 0, 0⟩
  | .region g => (parseGeometry g).getD ⟨0, 0, 0, 0⟩
  | .interactive =>
      (env.interactiveOutcome
        (update_region_from_all_monitors ⟨0, 0, 0, 0⟩ mm).2).getD ⟨0, 0, 0, 0⟩
  | .window =>
      match env.activeWindow with
      | .window r => r
      | _ => ⟨0, 0, 0, 0⟩
  | _ => ⟨0, 0, 0, 0⟩

/-- The message `parse_options` prints for each failure kind. -/
def msgForCode (code : Int) : TraceEntry :=
  if code = ERR_CANCELED then .msgCanceled
  else if code = ERR_NOT_IMPLEMENTED then .msgNotImplemented
  else if code = ERR_INVALID_ARGUMENT then .msgInvalidArgument
  else .msgOther

/-- A fixed environment used to evaluate the embedding on concrete inputs:
interactive selection commits a fixed rectangle, the active-window query
returns a fixed window, saving succeeds. -/
def envProbe : Env :=
  { interactiveOutcome := fun _ => some ⟨5, 6, 70, 80⟩,
    activeWindow := .window ⟨7, 8, 90, 100⟩,
    saveOk := true }

/-- A one-monitor configuration used for concrete evaluations. -/
def mm1 : MonitorManager := ⟨[⟨0, 0, 1920, 1080, false⟩]⟩

/-- The two-monitor configuration named in the spec's example. -/
def mm2 : MonitorManager :=
  ⟨[⟨0, 0, 1920, 1080, true⟩, ⟨1920, 0, 1280, 1024, false⟩]⟩

example : desktopUnion mm2.monitors = ⟨0, 0, 3200, 1080⟩ := by decide

example : atoi "-1" = -1 := by decide

example : parseGeometry "100x100+3+4" = some ⟨3, 4, 100, 100⟩ := by decide

example : parseGeometry "0x100" = none := by decide

example : (parse_options envProbe mm1 []).region = ⟨0, 0, 1920, 1080⟩ := by decide

theorem loop_nil (env : Env) (mm : MonitorManager) (st : ParseState) :
    loop env mm st [] = st := rfl

theorem loop_cons (env : Env) (mm : MonitorManager) (st : ParseState)
    (e : OptEvent) (es : List OptEvent) :
    loop env mm st (e :: es) =
      if st.error = 0 then loop env mm (step env mm st e) es else st := rfl

theorem loop_stopped (env : Env) (mm : MonitorManager) (st : ParseState)
    (es : List OptEvent) (h : st.error ≠ 0) : loop env mm st es = st := by
  cases es <;> simp [loop, h]

theorem loop_append (env : Env) (mm : MonitorManager) (es1 es2 : List OptEvent)
    (st : ParseState) :
    loop env mm st (es1 ++ es2) = loop env mm (loop env mm st es1) es2 := by
  induction es1 generalizing st with
  | nil => simp [loop]
  | cons e es1 ih =>
      by_cases h0 : st.error = 0
      · simp [loop_cons, h0, ih]
      · simp [loop_cons, h0, loop_stopped env mm st es2 h0]

theorem step_mode (env : Env) (mm : MonitorManager) (st : ParseState) (e : OptEvent)
    (he : e.isMode = true) :
    (step env mm st e).error = st.error ∧
    (step env mm st e).region_result = modeCode env mm e ∧
    (modeCode env mm e = 0 → (step env mm st e).region = modeRect env mm e) := by
  cases e with
  | help => simp [OptEvent.isMode] at he
  | output p => simp [OptEvent.isMode] at he
  | badOpt => simp [OptEvent.isMode] at he
  | desktop =>
      cases hm : mm.monitors with
      | nil =>
          simp [step, modeCode, update_region_from_all_monitors, hm,
            List.isEmpty, ERR_OTHER]
      | cons m ms =>
          simp [step, modeCode, modeRect, update_region_from_all_monitors, hm,
            List.isEmpty]
  | monitor arg =>
      by_cases hn : cSizeT (atoi arg) < mm.monitors.length
      · simp [step, modeCode, modeRect, update_region_from_monitor, hn]
      · simp [step, modeCode, modeRect, hn, ERR_INVALID_ARGUMENT]
  | region g =>
      cases hp : parseGeometry g with
      | none =>
          simp [step, modeCode, modeRect, update_region_from_string, hp,
            ERR_INVALID_ARGUMENT]
      | some r =>
          simp [step, modeCode, modeRect, update_region_from_string, hp]
  | interactive =>
      cases hi : env.interactiveOutcome (update_region_from_all_monitors ⟨0, 0, 0, 0⟩ mm).2 with
      | none =>
          simp [step, modeCode, modeRect, update_region_interactively, hi,
            ERR_CANCELED]
      | some r =>
          simp [step, modeCode, modeRect, update_region_interactively, hi]
  | window =>
      cases hw : env.activeWindow with
      | notImplemented =>
          simp [step, modeCode, modeRect, update_region_from_active_window, hw,
            ERR_NOT_IMPLEMENTED]
      | otherFailure =>
          simp [step, modeCode, modeRect, update_region_from_active_window, hw,
            ERR_OTHER]
      | window r =>
          simp [step, modeCode, modeRect, update_region_from_active_window, hw]

theorem modeCode_nonneg (env : Env) (mm : MonitorManager) (e : OptEvent) :
    0 ≤ modeCode env mm e := by
  cases e with
  | desktop => simp [modeCode, ERR_OTHER]; split <;> norm_num
  | monitor arg => simp [modeCode, ERR_INVALID_ARGUMENT]; split <;> norm_num
  | region g =>
      simp only [modeCode]
      cases parseGeometry g <;> norm_num [ERR_INVALID_ARGUMENT]
  | interactive =>
      simp only [modeCode]
      cases env.interactiveOutcome (update_region_from_all_monitors ⟨0, 0, 0, 0⟩ mm).2 <;>
        norm_num [ERR_CANCELED]
  | window =>
      simp only [modeCode]
      cases env.activeWindow <;> norm_num [ERR_NOT_IMPLEMENTED, ERR_OTHER]
  | help => norm_num [modeCode]
  | output p => norm_num [modeCode]
  | badOpt => norm_num [modeCode]

theorem loop_mode_run (env : Env) (mm : MonitorManager) (es : List OptEvent)
    (st : ParseState) (h0 : st.error = 0) (hes : ∀ x ∈ es, x.isMode = true) :
    (loop env mm st es).error = 0 := by
  induction es generalizing st with
  | nil => simpa [loop] using h0
  | cons e es ih =>
      have he := hes e (by simp)
      have hstep := step_mode env mm st e he
      rw [loop_cons, if_pos h0]
      exact ih _ (hstep.1.trans h0) (fun x hx => hes x (by simp [hx]))

theorem applyFallback_of_ne (mm : MonitorManager) (st : ParseState)
    (h : st.region_result ≠ -1) : applyFallback mm st = st := by
  simp [applyFallback, h]

theorem reportFailure_region_result (st : ParseState) :
    (reportFailure st).region_result = st.region_result := by
  unfold reportFailure; split <;> rfl

theorem reportFailure_region (st : ParseState) :
    (reportFailure st).region = st.region := by
  unfold reportFailure; split <;> rfl

/-- C1: when several region-mode flags are processed, each mode resolver
overwrites the previous outcome, so after any all-mode flag sequence the
final result code is the one produced by the last mode flag, and when that
resolver succeeds the final candidate rectangle is the one it produced —
independent of every earlier mode flag, with no merging. -/
theorem c1_last_mode_wins (env : Env) (mm : MonitorManager) (es : List OptEvent)
    (e : OptEvent) (hes : ∀ x ∈ es, x.isMode = true) (he : e.isMode = true) :
    (parse_options env mm (es ++ [e])).region_result = modeCode env mm e ∧
    (modeCode env mm e = 0 →
      (parse_options env mm (es ++ [e])).region = modeRect env mm e) := by
  have h0 : (initState mm).error = 0 := rfl
  have hrun := loop_mode_run env mm es (initState mm) h0 hes
  have happ : loop env mm (initState mm) (es ++ [e]) =
      step env mm (loop env mm (initState mm) es) e := by
    rw [loop_append, loop_cons, if_pos hrun, loop_nil]
  have hstep := step_mode env mm (loop env mm (initState mm) es) e he
  have hne : (step env mm (loop env mm (initState mm) es) e).region_result ≠ -1 := by
    rw [hstep.2.1]
    have := modeCode_nonneg env mm e
    omega
  unfold parse_options
  rw [happ, applyFallback_of_ne mm _ hne]
  refine ⟨?_, fun hz => ?_⟩
  · rw [reportFailure_region_result, hstep.2.1]
  · rw [reportFailure_region, hstep.2.2 hz]

theorem c1_last_mode_wins_witness :
    (parse_options envProbe mm1 ([OptEvent.desktop] ++ [OptEvent.window])).region_result =
      modeCode envProbe mm1 OptEvent.window ∧
    (modeCode envProbe mm1 OptEvent.window = 0 →
      (parse_options envProbe mm1 ([OptEvent.desktop] ++ [OptEvent.window])).region =
        modeRect envProbe mm1 OptEvent.window) :=
  c1_last_mode_wins envProbe mm1 [OptEvent.desktop] OptEvent.window
    (by decide) (by decide)

theorem step_no_mode_keeps (env : Env) (mm : MonitorManager) (st : ParseState)
    (e : OptEvent) (he : e.isMode = false) :
    (step env mm st e).region_result = st.region_result ∧
    (step env mm st e).region = st.region := by
  cases e <;> simp_all [step, OptEvent.isMode]

theorem loop_no_mode_keeps (env : Env) (mm : MonitorManager) (es : List OptEvent)
    (st : ParseState) (h : ∀ e ∈ es, e.isMode = false) :
    (loop env mm st es).region_result = st.region_result ∧
    (loop env mm st es).region = st.region := by
  induction es generalizing st with
  | nil => simp [loop]
  | cons e es ih =>
      by_cases h0 : st.error = 0
      · have he := h e (by simp)
        have hs := step_no_mode_keeps env mm st e he
        have hrest := ih (step env mm st e) (fun x hx => h x (by simp [hx]))
        rw [loop_cons, if_pos h0]
        exact ⟨hrest.1.trans hs.1, hrest.2.trans hs.2⟩
      · rw [loop_cons, if_neg h0]
        exact ⟨rfl, rfl⟩

/-- C2: when no region-mode flag is processed, the tracked mode result is
still the -1 sentinel after the option loop and the region is resolved via
the all-monitors desktop union; on the spec's two-monitor example the union
is x 0, y 0, width 3200, height 1080. -/
theorem c2_no_mode_desktop_fallback (env : Env) (mm : MonitorManager)
    (events : List OptEvent) (hne : mm.monitors ≠ [])
    (hnm : ∀ e ∈ events, e.isMode = false) :
    (parse_options env mm events).region_result = 0 ∧
    (parse_options env mm events).region = desktopUnion mm.monitors ∧
    desktopUnion mm2.monitors = ⟨0, 0, 3200, 1080⟩ := by
  have hk := loop_no_mode_keeps env mm events (initState mm) hnm
  have h1 : (loop env mm (initState mm) events).region_result = -1 := by
    rw [hk.1]; rfl
  obtain ⟨m, ms, hm⟩ : ∃ m ms, mm.monitors = m :: ms := by
    cases hmm : mm.monitors with
    | nil => exact absurd hmm hne
    | cons m ms => exact ⟨m, ms, rfl⟩
  have hfall : applyFallback mm (loop env mm (initState mm) events) =
      { loop env mm (initState mm) events with
          region_result := 0, region := desktopUnion mm.monitors,
          trace := (loop env mm (initState mm) events).trace ++
            [TraceEntry.invokedAllMonitors] } := by
    unfold applyFallback
    rw [if_pos h1]
    simp [update_region_from_all_monitors, hm]
  unfold parse_options
  rw [hfall]
  refine ⟨?_, ?_, by decide⟩
  · rw [reportFailure_region_result]
  · rw [reportFailure_region]

theorem c2_no_mode_desktop_fallback_witness :
    (parse_options envProbe mm2 []).region_result = 0 ∧
    (parse_options envProbe mm2 []).region = desktopUnion mm2.monitors ∧
    desktopUnion mm2.monitors = ⟨0, 0, 3200, 1080⟩ :=
  c2_no_mode_desktop_fallback envProbe mm2 [] (by decide) (by decide)

/-- An environment whose interactive selection commits a zero-sized
rectangle: the user clicked without dragging. -/
def envZero : Env :=
  { interactiveOutcome := fun _ => some ⟨10, 10, 0, 0⟩,
    activeWindow := .window ⟨7, 8, 90, 100⟩,
    saveOk := true }

/-- An environment on a platform without an active-window query. -/
def envFail : Env :=
  { interactiveOutcome := fun _ => none,
    activeWindow := .notImplemented,
    saveOk := true }

/-- C3: whenever option parsing succeeds, the resolved rectangle is
validated before capture; a non-positive width or height is rejected as a
fatal failure — the run stops with the validation message and no capture
trace entry is emitted — and the validation message is distinct from each of
the four mode-specific failure messages. -/
theorem c3_validation_rejects (env : Env) (mm : MonitorManager)
    (events : List OptEvent)
    (herr : (parse_options env mm events).error = 0)
    (hwh : (parse_options env mm events).region.width ≤ 0 ∨
           (parse_options env mm events).region.height ≤ 0) :
    mainRun env mm events =
      (1, (parse_options env mm events).trace ++ [TraceEntry.msgNonPositiveSize]) ∧
    TraceEntry.msgNonPositiveSize ≠ TraceEntry.msgCanceled ∧
    TraceEntry.msgNonPositiveSize ≠ TraceEntry.msgNotImplemented ∧
    TraceEntry.msgNonPositiveSize ≠ TraceEntry.msgInvalidArgument ∧
    TraceEntry.msgNonPositiveSize ≠ TraceEntry.msgOther := by
  refine ⟨?_, by decide, by decide, by decide, by decide⟩
  simp only [mainRun]
  rw [if_neg (not_not_intro herr), if_pos hwh]

theorem c3_validation_rejects_witness :
    mainRun envZero mm1 [OptEvent.interactive] =
      (1, (parse_options envZero mm1 [OptEvent.interactive]).trace ++
        [TraceEntry.msgNonPositiveSize]) ∧
    TraceEntry.msgNonPositiveSize ≠ TraceEntry.msgCanceled ∧
    TraceEntry.msgNonPositiveSize ≠ TraceEntry.msgNotImplemented ∧
    TraceEntry.msgNonPositiveSize ≠ TraceEntry.msgInvalidArgument ∧
    TraceEntry.msgNonPositiveSize ≠ TraceEntry.msgOther :=
  c3_validation_rejects envZero mm1 [OptEvent.interactive] (by decide) (by decide)

/-- C4: for a monitor index within 0..monitor_count-1 the resolver copies
exactly that monitor's rectangle and parsing succeeds; for an index at or
beyond monitor_count it fails with `ERR_INVALID_ARGUMENT`, printing the
message that reports the valid range 0..monitor_count-1. -/
theorem c4_monitor_index (env : Env) (mm : MonitorManager) (arg : String) :
    (∀ hn : cSizeT (atoi arg) < mm.monitors.length,
        (parse_options env mm [OptEvent.monitor arg]).error = 0 ∧
        (parse_options env mm [OptEvent.monitor arg]).region_result = 0 ∧
        (parse_options env mm [OptEvent.monitor arg]).region =
          (mm.monitors.get ⟨cSizeT (atoi arg), hn⟩).rect) ∧
    (mm.monitors.length ≤ cSizeT (atoi arg) →
        (parse_options env mm [OptEvent.monitor arg]).region_result =
          ERR_INVALID_ARGUMENT ∧
        (parse_options env mm [OptEvent.monitor arg]).error = 1 ∧
        TraceEntry.msgInvalidMonitorNumber ((mm.monitors.length : Int) - 1) ∈
          (parse_options env mm [OptEvent.monitor arg]).trace ∧
        TraceEntry.msgInvalidArgument ∈
          (parse_options env mm [OptEvent.monitor arg]).trace) := by
  have hloop : loop env mm (initState mm) [OptEvent.monitor arg] =
      step env mm (initState mm) (OptEvent.monitor arg) := by
    rw [loop_cons, if_pos (show (initState mm).error = 0 from rfl), loop_nil]
  constructor
  · intro hn
    unfold parse_options
    rw [hloop]
    simp only [step]
    rw [dif_pos hn]
    simp [update_region_from_monitor, applyFallback, reportFailure, initState]
  · intro hge
    have hn : ¬ cSizeT (atoi arg) < mm.monitors.length := not_lt.mpr hge
    unfold parse_options
    rw [hloop]
    simp only [step]
    rw [dif_neg hn]
    simp [applyFallback, reportFailure, initState, ERR_INVALID_ARGUMENT,
      ERR_CANCELED, ERR_NOT_IMPLEMENTED, ERR_OTHER]

theorem c4_monitor_index_witness :
    ((parse_options envProbe mm1 [OptEvent.monitor "0"]).error = 0 ∧
     (parse_options envProbe mm1 [OptEvent.monitor "0"]).region_result = 0 ∧
     (parse_options envProbe mm1 [OptEvent.monitor "0"]).region =
       (mm1.monitors.get ⟨cSizeT (atoi "0"), by decide⟩).rect) ∧
    ((parse_options envProbe mm1 [OptEvent.monitor "5"]).region_result =
       ERR_INVALID_ARGUMENT ∧
     (parse_options envProbe mm1 [OptEvent.monitor "5"]).error = 1 ∧
     TraceEntry.msgInvalidMonitorNumber ((mm1.monitors.length : Int) - 1) ∈
       (parse_options envProbe mm1 [OptEvent.monitor "5"]).trace ∧
     TraceEntry.msgInvalidArgument ∈
       (parse_options envProbe mm1 [OptEvent.monitor "5"]).trace) :=
  ⟨(c4_monitor_index envProbe mm1 "0").1 (by decide),
   (c4_monitor_index envProbe mm1 "5").2 (by decide)⟩

theorem modeCode_cases (env : Env) (mm : MonitorManager) (e : OptEvent) :
    modeCode env mm e = 0 ∨ modeCode env mm e = ERR_OTHER ∨
    modeCode env mm e = ERR_CANCELED ∨
    modeCode env mm e = ERR_NOT_IMPLEMENTED ∨
    modeCode env mm e = ERR_INVALID_ARGUMENT := by
  cases e with
  | desktop => simp only [modeCode]; split <;> simp
  | monitor arg => simp only [modeCode]; split <;> simp
  | region g =>
      simp only [modeCode]
      cases parseGeometry g <;> simp
  | interactive =>
      simp only [modeCode]
      cases env.interactiveOutcome (update_region_from_all_monitors ⟨0, 0, 0, 0⟩ mm).2 <;>
        simp
  | window =>
      simp only [modeCode]
      cases env.activeWindow <;> simp
  | help => simp [modeCode]
  | output p => simp [modeCode]
  | badOpt => simp [modeCode]

theorem modeCode_mem_four (env : Env) (mm : MonitorManager) (e : OptEvent)
    (hc : modeCode env mm e ≠ 0) :
    modeCode env mm e = ERR_OTHER ∨ modeCode env mm e = ERR_CANCELED ∨
    modeCode env mm e = ERR_NOT_IMPLEMENTED ∨
    modeCode env mm e = ERR_INVALID_ARGUMENT :=
  (modeCode_cases env mm e).resolve_left hc

theorem reportFailure_msg (st : ParseState)
    (h : st.region_result = ERR_OTHER ∨ st.region_result = ERR_CANCELED ∨
         st.region_result = ERR_NOT_IMPLEMENTED ∨
         st.region_result = ERR_INVALID_ARGUMENT) :
    (reportFailure st).error = 1 ∧
    msgForCode st.region_result ∈ (reportFailure st).trace := by
  rcases h with h | h | h | h <;>
    simp [reportFailure, msgForCode, h, ERR_OTHER, ERR_CANCELED,
      ERR_NOT_IMPLEMENTED, ERR_INVALID_ARGUMENT]

/-- C5: any region-resolution failure exits the process with code 1 after a
message naming that failure kind.  First conjunct: when the last mode flag's
resolver fails with any of the four kinds, the kind is propagated unchanged
to the final result, its message is printed, and the exit code is 1.  Second
conjunct: the resolver-level validation failure (non-positive size) also
exits 1 after its own message. -/
theorem c5_failure_exit (env : Env) (mm : MonitorManager) :
    (∀ (es : List OptEvent) (e : OptEvent),
      (∀ x ∈ es, x.isMode = true) → e.isMode = true →
      modeCode env mm e ≠ 0 →
      (parse_options env mm (es ++ [e])).region_result = modeCode env mm e ∧
      msgForCode (modeCode env mm e) ∈ (parse_options env mm (es ++ [e])).trace ∧
      (mainRun env mm (es ++ [e])).1 = 1) ∧
    (∀ events : List OptEvent,
      (parse_options env mm events).error = 0 →
      ((parse_options env mm events).region.width ≤ 0 ∨
       (parse_options env mm events).region.height ≤ 0) →
      (mainRun env mm events).1 = 1 ∧
      TraceEntry.msgNonPositiveSize ∈ (mainRun env mm events).2) := by
  constructor
  · intro es e hes he hc
    have hrun := loop_mode_run env mm es (initState mm) rfl hes
    have happ : loop env mm (initState mm) (es ++ [e]) =
        step env mm (loop env mm (initState mm) es) e := by
      rw [loop_append, loop_cons, if_pos hrun, loop_nil]
    have hstep := step_mode env mm (loop env mm (initState mm) es) e he
    have hcode : (step env mm (loop env mm (initState mm) es) e).region_result =
        modeCode env mm e := hstep.2.1
    have hne : (step env mm (loop env mm (initState mm) es) e).region_result ≠ -1 := by
      rw [hcode]
      have := modeCode_nonneg env mm e
      omega
    have hparse : parse_options env mm (es ++ [e]) =
        reportFailure (step env mm (loop env mm (initState mm) es) e) := by
      unfold parse_options
      rw [happ, applyFallback_of_ne mm _ hne]
    have hmem := reportFailure_msg (step env mm (loop env mm (initState mm) es) e)
      (by rw [hcode]; exact modeCode_mem_four env mm e hc)
    refine ⟨?_, ?_, ?_⟩
    · rw [hparse, reportFailure_region_result, hcode]
    · rw [hparse, ← hcode]
      exact hmem.2
    · simp only [mainRun]
      rw [hparse]
      simp [hmem.1]
  · intro events herr hwh
    simp only [mainRun]
    rw [if_neg (not_not_intro herr), if_pos hwh]
    exact ⟨rfl, by simp⟩

theorem c5_failure_exit_witness :
    ((parse_options envFail mm1 ([] ++ [OptEvent.window])).region_result =
       modeCode envFail mm1 OptEvent.window ∧
     msgForCode (modeCode envFail mm1 OptEvent.window) ∈
       (parse_options envFail mm1 ([] ++ [OptEvent.window])).trace ∧
     (mainRun envFail mm1 ([] ++ [OptEvent.window])).1 = 1) ∧
    ((mainRun envZero mm1 [OptEvent.interactive]).1 = 1 ∧
     TraceEntry.msgNonPositiveSize ∈ (mainRun envZero mm1 [OptEvent.interactive]).2) :=
  ⟨(c5_failure_exit envFail mm1).1 [] OptEvent.window (by decide) (by decide) (by decide),
   (c5_failure_exit envZero mm1).2 [OptEvent.interactive] (by decide) (by decide)⟩

/-- C6: processing the interactive flag first computes the all-monitors
desktop union — a computation that succeeds whenever at least one monitor is
enumerated — and invokes the interactive selector with exactly that union as
its working area. -/
theorem c6_interactive_working_area (env : Env) (mm : MonitorManager)
    (st : ParseState) (hne : mm.monitors ≠ []) :
    (update_region_from_all_monitors ⟨0, 0, 0, 0⟩ mm).1 = 0 ∧
    (step env mm st OptEvent.interactive).trace =
      st.trace ++ [TraceEntry.invokedAllMonitors,
        TraceEntry.invokedInteractive (desktopUnion mm.monitors)] := by
  obtain ⟨m, ms, hm⟩ : ∃ m ms, mm.monitors = m :: ms := by
    cases hmm : mm.monitors with
    | nil => exact absurd hmm hne
    | cons m ms => exact ⟨m, ms, rfl⟩
  have hwa : update_region_from_all_monitors ⟨0, 0, 0, 0⟩ mm =
      (0, desktopUnion mm.monitors) := by
    unfold update_region_from_all_monitors
    split
    · simp_all
    · rfl
  constructor
  · rw [hwa]
  · simp only [step]
    rw [hwa]

theorem c6_interactive_working_area_witness :
    (update_region_from_all_monitors ⟨0, 0, 0, 0⟩ mm1).1 = 0 ∧
    (step envProbe mm1 (initState mm1) OptEvent.interactive).trace =
      (initState mm1).trace ++ [TraceEntry.invokedAllMonitors,
        TraceEntry.invokedInteractive (desktopUnion mm1.monitors)] :=
  c6_interactive_working_area envProbe mm1 (initState mm1) (by decide)

theorem centerStep_dims (r : ShotRegion) (m : Monitor) :
    (centerStep r m).width = r.width ∧ (centerStep r m).height = r.height := by
  unfold centerStep
  split <;> simp

theorem foldl_centerStep_dims (ms : List Monitor) (r : ShotRegion) :
    (ms.foldl centerStep r).width = r.width ∧
    (ms.foldl centerStep r).height = r.height := by
  induction ms generalizing r with
  | nil => simp
  | cons m ms ih =>
      simp only [List.foldl_cons]
      exact ⟨(ih _).1.trans (centerStep_dims r m).1,
             (ih _).2.trans (centerStep_dims r m).2⟩

theorem centerStep_primary (r : ShotRegion) (m : Monitor) (hp : m.primary = true) :
    centerStep r m =
      ⟨m.x + Int.tdiv (m.width - r.width) 2,
       m.y + Int.tdiv (m.height - r.height) 2, r.width, r.height⟩ := by
  unfold centerStep
  rw [if_pos hp]

theorem foldl_centerStep_no_primary (ms : List Monitor) (r : ShotRegion)
    (h : ∀ m ∈ ms, m.primary = false) : ms.foldl centerStep r = r := by
  induction ms generalizing r with
  | nil => simp
  | cons m ms ih =>
      have hm := h m (by simp)
      simp only [List.foldl_cons]
      rw [show centerStep r m = r from by unfold centerStep; rw [hm]; simp]
      exact ih r (fun x hx => h x (by simp [hx]))

/-- C7 counterexample: with a single monitor at (0,0,1920,1080) that is not
marked primary, `init_region` keeps the fixed default position (40,40); it
does not center the 640x480 region on the first enumerated monitor, which
would place it at (640,300). -/
theorem c7_no_primary_not_centered_cx :
    init_region ⟨[⟨0, 0, 1920, 1080, false⟩]⟩ = ⟨40, 40, 640, 480⟩ ∧
    init_region ⟨[⟨0, 0, 1920, 1080, false⟩]⟩ ≠ ⟨640, 300, 640, 480⟩ := by
  decide

/-- C7 amended: when no monitor is marked primary, the initial region is the
fixed 640x480 default at (40,40) — the first monitor is NOT used for
centering; when a monitor is marked primary (the last such marking winning),
the 640x480 initial region is centered on that primary monitor. -/
theorem c7_init_region_amended (mm : MonitorManager) :
    ((∀ m ∈ mm.monitors, m.primary = false) →
      init_region mm = ⟨40, 40, 640, 480⟩) ∧
    (∀ pre p post, mm.monitors = pre ++ p :: post → p.primary = true →
      (∀ m ∈ post, m.primary = false) →
      init_region mm =
        ⟨p.x + Int.tdiv (p.width - 640) 2, p.y + Int.tdiv (p.height - 480) 2,
         640, 480⟩) := by
  constructor
  · intro h
    unfold init_region
    exact foldl_centerStep_no_primary mm.monitors _ h
  · intro pre p post hsplit hp hpost
    unfold init_region
    rw [hsplit, List.foldl_append, List.foldl_cons,
      foldl_centerStep_no_primary post _ hpost]
    obtain ⟨hw, hh⟩ := foldl_centerStep_dims pre ⟨40, 40, 640, 480⟩
    rw [centerStep_primary _ p hp, hw, hh]

theorem c7_init_region_amended_witness :
    init_region mm1 = ⟨40, 40, 640, 480⟩ ∧
    init_region mm2 =
      ⟨0 + Int.tdiv (1920 - 640) 2, 0 + Int.tdiv (1080 - 480) 2, 640, 480⟩ :=
  ⟨(c7_init_region_amended mm1).1 (by decide),
   (c7_init_region_amended mm2).2 [] ⟨0, 0, 1920, 1080, true⟩
     [⟨1920, 0, 1280, 1024, false⟩] rfl rfl (by decide)⟩

/-- C8: the short-option string of src/shot.c lacks an entry for the m flag,
so a short -m N is delivered as an unrecognized option: parsing fails with a
usage hint and single-monitor resolution is never invoked — while the long
--monitor N flag maps to the monitor handler and copies the monitor's
rectangle.  This contradicts the documented flag table, which lists -m and
--monitor as equivalent. -/
theorem c8_short_m_rejected :
    shortFlagEvent 'm' "0" = OptEvent.badOpt ∧
    longFlagEvent "monitor" "0" = OptEvent.monitor "0" ∧
    (parse_options envProbe mm1 [shortFlagEvent 'm' "0"]).error = 1 ∧
    TraceEntry.invokedMonitor 0 ∉
      (parse_options envProbe mm1 [shortFlagEvent 'm' "0"]).trace ∧
    TraceEntry.usageHint ∈
      (parse_options envProbe mm1 [shortFlagEvent 'm' "0"]).trace ∧
    (parse_options envProbe mm1 [longFlagEvent "monitor" "0"]).region_result = 0 ∧
    (parse_options envProbe mm1 [longFlagEvent "monitor" "0"]).region =
      ⟨0, 0, 1920, 1080⟩ := by
  decide

/-- C9 counterexample: on the invocation consisting of the help flag alone,
the all-monitors fallback resolver is invoked after the option loop — region
resolution is not bypassed entirely. -/
theorem c9_help_invokes_fallback_cx :
    TraceEntry.invokedAllMonitors ∈
      (parse_options envProbe mm1 [OptEvent.help]).trace := by
  decide

/-- C9 amended: a help flag shows the usage text, stops option processing,
and aborts the run with exit code 1 before any capture; but region
resolution is not bypassed entirely: because the tracked mode result is
still the -1 sentinel when the loop stops, the all-monitors fallback
resolver is still invoked after the loop (harmlessly — its success cannot
clear the help error, so the run still exits 1). -/
theorem c9_help_behavior (env : Env) (mm : MonitorManager)
    (rest : List OptEvent) (hne : mm.monitors ≠ []) :
    (parse_options env mm (OptEvent.help :: rest)).error = -1 ∧
    TraceEntry.usage ∈ (parse_options env mm (OptEvent.help :: rest)).trace ∧
    TraceEntry.invokedAllMonitors ∈
      (parse_options env mm (OptEvent.help :: rest)).trace ∧
    (mainRun env mm (OptEvent.help :: rest)).1 = 1 := by
  obtain ⟨m, ms, hm⟩ : ∃ m ms, mm.monitors = m :: ms := by
    cases hmm : mm.monitors with
    | nil => exact absurd hmm hne
    | cons m ms => exact ⟨m, ms, rfl⟩
  have hparse : parse_options env mm (OptEvent.help :: rest) =
      { error := -1, output_path := none, region := desktopUnion mm.monitors,
        region_result := 0,
        trace := [TraceEntry.usage, TraceEntry.invokedAllMonitors] } := by
    unfold parse_options
    rw [loop_cons, if_pos (show (initState mm).error = 0 from rfl)]
    rw [show step env mm (initState mm) OptEvent.help =
        { error := -1, output_path := none, region := init_region mm,
          region_result := -1, trace := [TraceEntry.usage] } from by
      simp [step, initState]]
    rw [loop_stopped env mm _ rest (by norm_num)]
    simp [applyFallback, update_region_from_all_monitors, hm, reportFailure]
  refine ⟨by rw [hparse], by rw [hparse]; simp, by rw [hparse]; simp, ?_⟩
  simp only [mainRun]
  rw [hparse]
  norm_num

theorem c9_help_behavior_witness :
    (parse_options envProbe mm1 (OptEvent.help :: [])).error = -1 ∧
    TraceEntry.usage ∈ (parse_options envProbe mm1 (OptEvent.help :: [])).trace ∧
    TraceEntry.invokedAllMonitors ∈
      (parse_options envProbe mm1 (OptEvent.help :: [])).trace ∧
    (mainRun envProbe mm1 (OptEvent.help :: [])).1 = 1 :=
  c9_help_behavior envProbe mm1 [] (by decide)

/-- C10: a --monitor argument that parses to a negative integer is converted
to a size_t index of at least 2^64 - 2^31, which is always at or beyond
monitor_count (an unsigned int), so resolution rejects it with
`ERR_INVALID_ARGUMENT`: parsing errors out and the region is left at its
initial value — a negative index never selects a monitor. -/
theorem c10_negative_monitor_rejected (env : Env) (mm : MonitorManager)
    (arg : String) (hneg : atoi arg < 0) (hrange : -(2 ^ 31) ≤ atoi arg)
    (hcount : (mm.monitors.length : Int) < 2 ^ 32) :
    mm.monitors.length ≤ cSizeT (atoi arg) ∧
    (parse_options env mm [OptEvent.monitor arg]).region_result =
      ERR_INVALID_ARGUMENT ∧
    (parse_options env mm [OptEvent.monitor arg]).error = 1 ∧
    (parse_options env mm [OptEvent.monitor arg]).region = init_region mm := by
  have hge : mm.monitors.length ≤ cSizeT (atoi arg) := by
    unfold cSizeT
    omega
  have hloop : loop env mm (initState mm) [OptEvent.monitor arg] =
      step env mm (initState mm) (OptEvent.monitor arg) := by
    rw [loop_cons, if_pos (show (initState mm).error = 0 from rfl), loop_nil]
  have hn : ¬ cSizeT (atoi arg) < mm.monitors.length := not_lt.mpr hge
  refine ⟨hge, ?_, ?_, ?_⟩ <;>
    · unfold parse_options
      rw [hloop]
      simp only [step]
      rw [dif_neg hn]
      simp [applyFallback, reportFailure, initState, ERR_INVALID_ARGUMENT,
        ERR_CANCELED, ERR_NOT_IMPLEMENTED, ERR_OTHER]

theorem c10_negative_monitor_rejected_witness :
    mm1.monitors.length ≤ cSizeT (atoi "-1") ∧
    (parse_options envProbe mm1 [OptEvent.monitor "-1"]).region_result =
      ERR_INVALID_ARGUMENT ∧
    (parse_options envProbe mm1 [OptEvent.monitor "-1"]).error = 1 ∧
    (parse_options envProbe mm1 [OptEvent.monitor "-1"]).region = init_region mm1 :=
  c10_negative_monitor_rejected envProbe mm1 "-1" (by decide) (by decide)
    (by decide)
